import Mathlib

/-!
Verification development for the Stock-market-prediction repository.

JS numbers are modelled as exact rationals (`ℚ`).  The JS idiom
`parseFloat(x.toFixed(2))` is modelled by `round2` below: ECMAScript
`toFixed(f)` picks the integer `n` for which `n / 10^f - x` is closest to
zero, the larger `n` at a tie, i.e. `n = ⌊x·100 + 1/2⌋` for `f = 2`.
`Math.random()` draws are modelled as explicit parameters `rng : ℕ → ℚ`
(the successive values of the ambient random stream, each in `[0, 1)`).
Calls to the generative-AI endpoint are modelled as oracle parameters of
type `Except Unit (Option _)`: `.error ()` is a thrown exception and
`.ok none` is a null `output`, both of which the source treats as failures.
-/

/-- Models `parseFloat(x.toFixed(2))` from the source: round to two decimal
places, halves towards positive infinity (the larger candidate integer, per
the ECMAScript `toFixed` specification). -/
def round2 (x : ℚ) : ℚ := (⌊x * 100 + 1/2⌋ : ℤ) / 100

/-- The `Stock` record of `src/lib/types.ts` (ticker, company name, current
price, absolute and percentage change). -/
structure Stock where
  ticker : String
  name : String
  price : ℚ
  change : ℚ
  changePercent : ℚ
deriving DecidableEq, Repr

/-- A chart point per `ChartDataSchema` of the AI flows: a month label plus
an optional historical price and an optional predicted price (both optional
in the zod schema; absence is `none`). -/
structure ChartPoint where
  date : String
  price : Option ℚ
  prediction : Option ℚ
deriving DecidableEq, Repr

/-- The per-ticker result `{ stock, chartData }` returned by the stock data
flows. -/
structure StockData where
  stock : Stock
  chartData : List ChartPoint
deriving DecidableEq, Repr

/-- The price of the last chart point that carries a `price` field
(the "last historical price"). -/
def lastHistoricalPrice (l : List ChartPoint) : Option ℚ :=
  (l.filterMap (fun d => d.price)).getLast?

namespace StockFlow

/-! Embedding of `src/src/ai/flows/stock-flow.ts`. -/

/-- `generateMockStockInfo` from `stock-flow.ts`:
`price = Math.random() * (8000 - 500) + 500`,
`changePercent = Math.random() * 10 - 5`,
`change = price * (changePercent / 100)`, and the name is
the ticker with its tail lower-cased followed by " Fictional Inc.".
`r1` and `r2` are the two `Math.random()` draws in source order. -/
def generateMockStockInfo (r1 r2 : ℚ) (ticker : String) : Stock :=
  let price := r1 * (8000 - 500) + 500
  let changePercent := r2 * 10 - 5
  let change := price * (changePercent / 100)
  { ticker := ticker
    name := ticker.take 1 ++ (ticker.drop 1).toLower ++ " Fictional Inc."
    price := price
    change := change
    changePercent := changePercent }

/-- The backwards-fluctuation recurrence of `generateMockChartData`
(`stock-flow.ts`): `tempPrice` starts at the target price and each loop
iteration divides by `1 + (Math.random() * 0.1 - 0.05)`; `rng n` is the
draw consumed at iteration `n`. -/
def temp (price : ℚ) (rng : ℕ → ℚ) : ℕ → ℚ
  | 0 => price
  | n + 1 => temp price rng n / (1 + (rng n * (1/10) - 1/20))

/-- The forward prediction recurrence of `generateMockChartData`
(`stock-flow.ts`): `currentPrice` starts at the exact input price and each
iteration multiplies by `1 + (Math.random() * 0.1 - 0.04)`; the draws are
`rng 5 .. rng 8` (they follow the five historical draws in the ambient
random stream). -/
def predTemp (price : ℚ) (rng : ℕ → ℚ) : ℕ → ℚ
  | 0 => price
  | k + 1 => predTemp price rng k * (1 + (rng (5 + k) * (1/10) - 1/25))

/-- The month labels used by `generateMockChartData` in `stock-flow.ts`. -/
def months10 : List String :=
  ["Jan", "Feb", "Mar", "Apr", "May", "Jun", "Jul", "Aug", "Sep", "Oct"]

/-- `generateMockChartData` from `stock-flow.ts`, with its two fixed-bound
loops unrolled.  The five historical prices are built backwards from the
input price with `unshift` (so "Jan" holds the oldest value `temp 5`),
"Jun" is pushed as exactly `parseFloat(price.toFixed(2))`, and the four
prediction months hold the rounded values of the forward recurrence. -/
def generateMockChartData (price : ℚ) (rng : ℕ → ℚ) : List ChartPoint :=
  [ ⟨"Jan", some (round2 (temp price rng 5)), none⟩
  , ⟨"Feb", some (round2 (temp price rng 4)), none⟩
  , ⟨"Mar", some (round2 (temp price rng 3)), none⟩
  , ⟨"Apr", some (round2 (temp price rng 2)), none⟩
  , ⟨"May", some (round2 (temp price rng 1)), none⟩
  , ⟨"Jun", some (round2 price), none⟩
  , ⟨"Jul", none, some (round2 (predTemp price rng 1))⟩
  , ⟨"Aug", none, some (round2 (predTemp price rng 2))⟩
  , ⟨"Sep", none, some (round2 (predTemp price rng 3))⟩
  , ⟨"Oct", none, some (round2 (predTemp price rng 4))⟩ ]

/-- The two generative calls made per ticker by `getStockDataFlow`:
`stockInfoPrompt` and `chartDataPrompt`.  `.error ()` models a thrown
exception, `.ok none` a null `output`. -/
structure Oracle where
  stockInfo : String → Except Unit (Option Stock)
  chartData : String → ℚ → Except Unit (Option (List ChartPoint))

/-- The `try` block of the per-ticker closure in `getStockDataFlow`
(`stock-flow.ts`): call `stockInfoPrompt`; throw if the output is null or
its `price` is falsy (`!stockInfo.price`, i.e. `0` in the rational model);
call `chartDataPrompt`; throw if its output is null or the chart array is
empty; otherwise return `{ stock, chartData }`. -/
def fetchOneTry (o : Oracle) (ticker : String) : Except Unit StockData :=
  match o.stockInfo ticker with
  | .error e => .error e
  | .ok none => .error ()
  | .ok (some si) =>
    if si.price = 0 then .error ()
    else
      match o.chartData ticker si.price with
      | .error e => .error e
      | .ok none => .error ()
      | .ok (some cd) => if cd.isEmpty then .error () else .ok ⟨si, cd⟩

/-- The `catch` branch of the per-ticker closure: mock stock info from the
next two random draws, then mock chart data (which consumes the following
draws of the ambient stream, hence the shift by 2). -/
def mockStockData (rng : ℕ → ℚ) (ticker : String) : StockData :=
  let si := generateMockStockInfo (rng 0) (rng 1) ticker
  ⟨si, generateMockChartData si.price (fun n => rng (n + 2))⟩

/-- The whole per-ticker closure of `getStockDataFlow`: the `try` block,
falling back to mock data on any failure. -/
def fetchOne (o : Oracle) (rng : ℕ → ℚ) (ticker : String) : StockData :=
  match fetchOneTry o ticker with
  | .ok r => r
  | .error _ => mockStockData rng ticker

/-- `tickers.map(...)` with the position index made explicit so that each
ticker position gets its own slice `rng i` of the random stream. -/
def getStockDataFlowAux (o : Oracle) (rng : ℕ → ℕ → ℚ) :
    ℕ → List String → List StockData
  | _, [] => []
  | i, t :: ts => fetchOne o (rng i) t :: getStockDataFlowAux o rng (i + 1) ts

/-- `getStockDataFlow` from `stock-flow.ts`: map the per-ticker closure over
the input tickers (`Promise.all` preserves order and multiplicity). -/
def getStockDataFlow (o : Oracle) (rng : ℕ → ℕ → ℚ) (tickers : List String) :
    List StockData :=
  getStockDataFlowAux o rng 0 tickers

/-- The opinion record `{ opinion: string }`. -/
structure Opinion where
  opinion : String
deriving DecidableEq, Repr

/-- The static fallback opinion of `getStockOpinionFlow` in `stock-flow.ts`. -/
def fallbackOpinion : Opinion :=
  ⟨"Disclaimer: This is an AI-generated analysis and not financial advice. AI opinion is currently unavailable for this stock, please conduct your own research."⟩

/-- `getStockOpinionFlow` from `stock-flow.ts`: return the prompt output;
on a thrown error or a null output, return the static fallback opinion. -/
def getStockOpinionFlow (res : Except Unit (Option Opinion)) : Opinion :=
  match res with
  | .ok (some o) => o
  | .ok none => fallbackOpinion
  | .error _ => fallbackOpinion

end StockFlow

namespace OpinionFlow

/-! Embedding of the `stockOpinionFlow` of
`src/src/ai/flows/stock-opinion-flow.ts`. -/

/-- The static fallback opinion of `stockOpinionFlow` in
`stock-opinion-flow.ts`. -/
def fallbackOpinion : StockFlow.Opinion :=
  ⟨"Disclaimer: This is an AI-generated analysis and not financial advice. The AI opinion is currently unavailable due to a technical issue. Please try again later."⟩

/-- `stockOpinionFlow` from `stock-opinion-flow.ts`: return the prompt
output; on a thrown error or a null output, return the static default
opinion (the source comment: return a default opinion on error to prevent
crashing the frontend). -/
def stockOpinionFlow (res : Except Unit (Option StockFlow.Opinion)) :
    StockFlow.Opinion :=
  match res with
  | .ok (some o) => o
  | .ok none => fallbackOpinion
  | .error _ => fallbackOpinion

end OpinionFlow

namespace StockDataV2

/-! Embedding of the `stockDataFlow` found in the second document of
`src/src/ai/flows/stock-opinion-flow.ts`: the validation/repair step run on
the AI output. -/

/-- The repair step of `stockDataFlow`: take the chart points that carry a
`price` (`d.price !== undefined`); if there is at least one and the last
one's price is truthy (nonzero in the rational model), copy it into
`stock.price`; then, when the first point without a `price`
(`findIndex(d => d.price === undefined)`) exists at a positive index,
overwrite the `prediction` of the point just before it with that price.
The source reads `lastHistoricalPoint` only through its `price` field, so
the two steps "last element of the filtered list" and "its `price`" are
fused here with `Option.bind` (the filter guarantees the price is present).
JS `findIndex` yields `-1` when nothing matches and `-1 > 0` is false, so
the Lean translation requires the found index to be within bounds. -/
def repairStockData (o : StockData) : StockData :=
  match ((o.chartData.filter (fun d => d.price.isSome)).getLast?).bind
      (fun d => d.price) with
  | none => o
  | some p =>
    if p = 0 then o
    else
      if o.chartData.findIdx (fun d => d.price.isNone) < o.chartData.length
          ∧ 0 < o.chartData.findIdx (fun d => d.price.isNone) then
        match o.chartData[o.chartData.findIdx (fun d => d.price.isNone) - 1]? with
        | some d =>
          ⟨{ o.stock with price := p },
            o.chartData.set
              (o.chartData.findIdx (fun d => d.price.isNone) - 1)
              { d with prediction := some p }⟩
        | none => ⟨{ o.stock with price := p }, o.chartData⟩
      else ⟨{ o.stock with price := p }, o.chartData⟩

end StockDataV2

/-- One entry of the `REAL_STOCK_DATA` table of `src/lib/real-stock-data.ts`. -/
structure RealStockInfo where
  name : String
  price : ℚ
  changePercent : ℚ
deriving DecidableEq, Repr

/-- The `REAL_STOCK_DATA` table: ticker symbols mapped to their data. -/
def REAL_STOCK_DATA : List (String × RealStockInfo) :=
  [ ("RELIANCE", ⟨"Reliance Industries Ltd.", 1516.00, -0.20⟩)
  , ("HDFCBANK", ⟨"HDFC Bank Ltd.", 2013.60, 0.12⟩)
  , ("TCS", ⟨"Tata Consultancy Services Ltd.", 3369.60, -0.42⟩)
  , ("BHARTIARTL", ⟨"Bharti Airtel Ltd.", 1970.20, -2.45⟩)
  , ("ICICIBANK", ⟨"ICICI Bank Ltd.", 1425.60, -0.44⟩)
  , ("SBIN", ⟨"State Bank of India", 809.05, -0.23⟩)
  , ("INFY", ⟨"Infosys Ltd.", 1611.60, -1.35⟩)
  , ("BAJFINANCE", ⟨"Bajaj Finance Ltd.", 947.30, 0.71⟩)
  , ("LICI", ⟨"Life Insurance Corporation of India", 928.75, -1.82⟩)
  , ("HINDUNILVR", ⟨"Hindustan Unilever Ltd.", 2410.70, -0.52⟩)
  , ("ITC", ⟨"ITC Ltd.", 418.05, -0.33⟩)
  , ("LT", ⟨"Larsen & Toubro Ltd.", 3578.70, -0.03⟩)
  , ("HCLTECH", ⟨"HCL Technologies Ltd.", 1663.70, -0.62⟩)
  , ("KOTAKBANK", ⟨"Kotak Mahindra Bank Ltd.", 2223.70, -0.25⟩)
  , ("SUNPHARMA", ⟨"Sun Pharmaceutical Industries Ltd.", 1662.20, -0.43⟩)
  , ("MARUTI", ⟨"Maruti Suzuki India Ltd.", 12646.00, 1.41⟩)
  , ("M_AND_M", ⟨"Mahindra & Mahindra Ltd.", 3162.90, -0.42⟩)
  , ("ULTRACEMCO", ⟨"UltraTech Cement Ltd.", 12573.00, 0.09⟩)
  , ("AXISBANK", ⟨"Axis Bank Ltd.", 1167.70, 0.26⟩)
  , ("NTPC", ⟨"NTPC Ltd.", 342.20, -0.52⟩)
  , ("HAL", ⟨"Hindustan Aeronautics Ltd.", 4906.20, -2.02⟩)
  , ("BAJAJFINSV", ⟨"Bajaj Finserv Ltd.", 2040.90, 0.72⟩)
  , ("ADANIPORTS", ⟨"Adani Ports & Special Economic Zone Ltd.", 1442.80, -0.01⟩)
  , ("ONGC", ⟨"Oil And Natural Gas Corporation Ltd.", 243.28, -0.03⟩)
  , ("TITAN", ⟨"Titan Company Ltd.", 3426.90, -0.15⟩)
  , ("BEL", ⟨"Bharat Electronics Ltd.", 412.65, -1.20⟩)
  , ("ADANIENT", ⟨"Adani Enterprises Ltd.", 2581.20, -0.07⟩)
  , ("POWERGRID", ⟨"Power Grid Corporation of India Ltd.", 298.40, -0.42⟩)
  , ("WIPRO", ⟨"Wipro Ltd.", 264.30, -1.31⟩)
  , ("DMART", ⟨"Avenue Supermarts Ltd.", 4183.00, -0.19⟩)
  , ("TATAMOTORS", ⟨"Tata Motors Ltd.", 692.50, -0.04⟩)
  , ("JSWSTEEL", ⟨"JSW Steel Ltd.", 1041.00, 0.06⟩)
  , ("ETERNAL", ⟨"Eternal Ltd.", 263.00, -0.59⟩)
  , ("ASIANPAINT", ⟨"Asian Paints Ltd.", 2478.20, -0.83⟩)
  , ("COALINDIA", ⟨"Coal India Ltd.", 383.70, -0.97⟩) ]

/-- JS object property access `REAL_STOCK_DATA[ticker]`: `some` when the
ticker is a key of the table, `none` (`undefined`) otherwise. -/
def lookupReal (ticker : String) : Option RealStockInfo :=
  (REAL_STOCK_DATA.find? (fun p => p.1 = ticker)).map (fun p => p.2)

namespace RealDataFlow

/-! Embedding of `getStockInfoFromRealData` from the variant flow
(`src/unnamed/part_009`). -/

/-- `getStockInfoFromRealData`: look the ticker up in `REAL_STOCK_DATA` and
build the `Stock` from it with `change = price * (changePercent / 100)`;
for unknown tickers fall back to a pseudo-random price in `[500, 1500)` and
`changePercent` in `[-5, 5)` (draws `r1`, `r2`). -/
def getStockInfoFromRealData (r1 r2 : ℚ) (ticker : String) : Stock :=
  match lookupReal ticker with
  | some stock =>
    let price := stock.price
    let changePercent := stock.changePercent
    let change := price * (changePercent / 100)
    { ticker := ticker, name := stock.name, price := price
      change := change, changePercent := changePercent }
  | none =>
    let price := r1 * (1500 - 500) + 500
    let changePercent := r2 * 10 - 5
    let change := price * (changePercent / 100)
    { ticker := ticker
      name := ticker.take 1 ++ (ticker.drop 1).toLower ++ " Fictional Inc."
      price := price
      change := change
      changePercent := changePercent }

end RealDataFlow

namespace Portfolio

/-! Embedding of the portfolio page `src/src/app/portfolio/page.tsx`
(both versions of the page compute the derived values identically). -/

/-- The `Holding` record of `src/lib/types.ts`. -/
structure Holding where
  ticker : String
  name : String
  shares : ℚ
  avgCost : ℚ
  currentPrice : ℚ
deriving DecidableEq, Repr

/-- `holdings.reduce((acc, h) => acc + h.shares * h.currentPrice, 0)`. -/
def totalValue (hs : List Holding) : ℚ :=
  hs.foldl (fun acc h => acc + h.shares * h.currentPrice) 0

/-- `holdings.reduce((acc, h) => acc + h.shares * h.avgCost, 0)`. -/
def totalCost (hs : List Holding) : ℚ :=
  hs.foldl (fun acc h => acc + h.shares * h.avgCost) 0

/-- `totalGainLoss = totalValue - totalCost`. -/
def totalGainLoss (hs : List Holding) : ℚ := totalValue hs - totalCost hs

/-- The per-holding row computation: `gainLoss = totalValue - totalCost`
with `totalValue = h.shares * h.currentPrice` and
`totalCost = h.shares * h.avgCost`. -/
def holdingGainLoss (h : Holding) : ℚ :=
  h.shares * h.currentPrice - h.shares * h.avgCost

/-- A holding as stored by the stateful page: the numeric fields come from
`parseFloat` of form strings, which is `NaN` for non-numeric input; JS
numbers-or-NaN are modelled as `Option ℚ` with `none` for `NaN`. -/
structure JsHolding where
  ticker : String
  name : String
  shares : Option ℚ
  avgCost : Option ℚ
  currentPrice : Option ℚ
deriving DecidableEq, Repr

/-- The `newStock` form state: the three text fields of the add-stock
dialog. -/
structure NewStockForm where
  ticker : String
  shares : String
  price : String
deriving DecidableEq, Repr

/-- JS `x <= 0` where `x` may be `NaN` (`none`): comparisons with `NaN` are
false. -/
def jsLeZero : Option ℚ → Bool
  | some q => decide (q ≤ 0)
  | none => false

/-- JS `x < 0` where `x` may be `NaN` (`none`): comparisons with `NaN` are
false. -/
def jsLtZero : Option ℚ → Bool
  | some q => decide (q < 0)
  | none => false

/-- The validation guard of `handleAddStock`:
`!ticker || !shares || !price || parseFloat(shares) <= 0 || parseFloat(price) < 0`
(an empty string is falsy; `parse` models the `parseFloat` builtin, `none`
standing for `NaN`). -/
def addGuard (parse : String → Option ℚ) (f : NewStockForm) : Bool :=
  (f.ticker == "") || (f.shares == "") || (f.price == "")
    || jsLeZero (parse f.shares) || jsLtZero (parse f.price)

/-- JS `ticker.toUpperCase()`, modelled character-wise (core's
`String.toUpper` is defined by well-founded recursion and does not reduce
in the kernel; this structural equivalent maps `Char.toUpper` over the
characters). -/
def jsToUpper (s : String) : String := ⟨s.data.map Char.toUpper⟩

/-- The holding appended by `handleAddStock` when the guard passes: ticker
upper-cased; name and current price from `REAL_STOCK_DATA` when the
upper-cased ticker is a key there, otherwise a "(Custom)" name and the
parsed purchase price. -/
def newHoldingOf (parse : String → Option ℚ) (f : NewStockForm) : JsHolding :=
  match lookupReal (jsToUpper f.ticker) with
  | some stockData =>
    { ticker := jsToUpper f.ticker, name := stockData.name
      shares := parse f.shares, avgCost := parse f.price
      currentPrice := some stockData.price }
  | none =>
    { ticker := jsToUpper f.ticker
      name := jsToUpper f.ticker ++ " - (Custom)"
      shares := parse f.shares, avgCost := parse f.price
      currentPrice := parse f.price }

/-- `handleAddStock` from the stateful portfolio page, restricted to its
effect on the holdings list: if the guard trips (invalid input) the list is
unchanged, otherwise `setHoldings(prev => [...prev, newHolding])` appends
exactly one holding. -/
def handleAddStock (parse : String → Option ℚ) (hs : List JsHolding)
    (f : NewStockForm) : List JsHolding :=
  if addGuard parse f then hs else hs ++ [newHoldingOf parse f]

end Portfolio

/-- The disclaimer sentence both opinion fallbacks are required to start
with. -/
def disclaimerPhrase : String :=
  "Disclaimer: This is an AI-generated analysis and not financial advice."

/-! ## Theorems -/

lemma foldl_add_map {α : Type} (f : α → ℚ) (l : List α) (a : ℚ) :
    l.foldl (fun acc x => acc + f x) a = a + (l.map f).sum := by
  induction l generalizing a with
  | nil => simp
  | cons x xs ih => simp [ih, add_assoc]

/-- Claim C5: the portfolio page's derived gain/loss values are computed
from holdings as stated: total value is the sum over holdings of
shares × currentPrice, total cost the sum of shares × avgCost, total
gain/loss their difference, and each per-holding gain/loss equals
shares × (currentPrice − avgCost). -/
theorem portfolio_derived_values (hs : List Portfolio.Holding)
    (h : Portfolio.Holding) :
    Portfolio.totalValue hs
        = (hs.map (fun x => x.shares * x.currentPrice)).sum ∧
    Portfolio.totalCost hs = (hs.map (fun x => x.shares * x.avgCost)).sum ∧
    Portfolio.totalGainLoss hs
        = Portfolio.totalValue hs - Portfolio.totalCost hs ∧
    Portfolio.holdingGainLoss h
        = h.shares * (h.currentPrice - h.avgCost) := by
  refine ⟨?_, ?_, rfl, ?_⟩
  · simpa using foldl_add_map (fun x => x.shares * x.currentPrice) hs 0
  · simpa using foldl_add_map (fun x => x.shares * x.avgCost) hs 0
  · show h.shares * h.currentPrice - h.shares * h.avgCost = _
    ring

/-- Claim C6: for every input price and random draws,
`generateMockChartData` returns exactly 10 chart points labelled
Jan–Oct, the first 6 carrying only a historical price and the last 4
carrying only a prediction. -/
theorem generateMockChartData_shape (price : ℚ) (rng : ℕ → ℚ) :
    (StockFlow.generateMockChartData price rng).length = 10 ∧
    (StockFlow.generateMockChartData price rng).map (fun d => d.date)
        = StockFlow.months10 ∧
    (StockFlow.generateMockChartData price rng).map (fun d => d.price.isSome)
        = [true, true, true, true, true, true, false, false, false, false] ∧
    (StockFlow.generateMockChartData price rng).map
        (fun d => d.prediction.isSome)
        = [false, false, false, false, false, false, true, true, true, true] :=
  ⟨rfl, rfl, rfl, rfl⟩

/-- Claim C10: for all values of the two underlying random draws (each in
`[0, 1)` as `Math.random()` guarantees), `generateMockStockInfo` returns a
price in `[500, 8000)` and a changePercent in `[-5, 5)`. -/
theorem generateMockStockInfo_bounds (r1 r2 : ℚ) (t : String)
    (h1 : 0 ≤ r1) (h2 : r1 < 1) (h3 : 0 ≤ r2) (h4 : r2 < 1) :
    500 ≤ (StockFlow.generateMockStockInfo r1 r2 t).price ∧
    (StockFlow.generateMockStockInfo r1 r2 t).price < 8000 ∧
    -5 ≤ (StockFlow.generateMockStockInfo r1 r2 t).changePercent ∧
    (StockFlow.generateMockStockInfo r1 r2 t).changePercent < 5 := by
  have hp : (StockFlow.generateMockStockInfo r1 r2 t).price
      = r1 * (8000 - 500) + 500 := rfl
  have hc : (StockFlow.generateMockStockInfo r1 r2 t).changePercent
      = r2 * 10 - 5 := rfl
  rw [hp, hc]
  refine ⟨by nlinarith, by nlinarith, by nlinarith, by nlinarith⟩

/-- Witness for C10 at the concrete draws `r1 = r2 = 0`. -/
theorem generateMockStockInfo_bounds_witness :
    500 ≤ (StockFlow.generateMockStockInfo 0 0 "TCS").price ∧
    (StockFlow.generateMockStockInfo 0 0 "TCS").price < 8000 ∧
    -5 ≤ (StockFlow.generateMockStockInfo 0 0 "TCS").changePercent ∧
    (StockFlow.generateMockStockInfo 0 0 "TCS").changePercent < 5 :=
  generateMockStockInfo_bounds 0 0 "TCS" (by norm_num) (by norm_num)
    (by norm_num) (by norm_num)

/-- Counterexample to claim C4 as stated: for the table ticker "RELIANCE",
`getStockInfoFromRealData` returns `changePercent = -0.20` but
`change / price = -0.002`; `changePercent` is `100 ×` the ratio, not the
ratio itself. -/
theorem changePercent_ne_change_div_price :
    (RealDataFlow.getStockInfoFromRealData 0 0 "RELIANCE").changePercent ≠
      (RealDataFlow.getStockInfoFromRealData 0 0 "RELIANCE").change /
        (RealDataFlow.getStockInfoFromRealData 0 0 "RELIANCE").price := by
  have hl : lookupReal "RELIANCE"
      = some ⟨"Reliance Industries Ltd.", 1516.00, -0.20⟩ := by
    simp [lookupReal, REAL_STOCK_DATA, List.find?]
  unfold RealDataFlow.getStockInfoFromRealData
  rw [hl]
  norm_num

/-- Claim C4 (amended): every Stock record produced by the local generators
satisfies `change = price * (changePercent / 100)`, i.e. `changePercent` is
the percentage (100 times the ratio `change / price`), for every ticker and
all random draws, in both `generateMockStockInfo` and
`getStockInfoFromRealData`. -/
theorem change_consistency (r1 r2 : ℚ) (t : String) :
    (StockFlow.generateMockStockInfo r1 r2 t).change
        = (StockFlow.generateMockStockInfo r1 r2 t).price *
            ((StockFlow.generateMockStockInfo r1 r2 t).changePercent / 100) ∧
    (RealDataFlow.getStockInfoFromRealData r1 r2 t).change
        = (RealDataFlow.getStockInfoFromRealData r1 r2 t).price *
            ((RealDataFlow.getStockInfoFromRealData r1 r2 t).changePercent
              / 100) := by
  constructor
  · rfl
  · unfold RealDataFlow.getStockInfoFromRealData
    cases hl : lookupReal t <;> simp

/-- Claim C7: neither opinion flow propagates an error: on a thrown
generative call or a null output each returns its static fallback opinion,
and both fallback strings begin with the disclaimer sentence; a successful
output is passed through unchanged (no retry exists in either flow). -/
theorem opinion_flows_fallback (r s : Except Unit (Option StockFlow.Opinion)) :
    ((r = .error () ∨ r = .ok none) →
        StockFlow.getStockOpinionFlow r = StockFlow.fallbackOpinion) ∧
    StockFlow.fallbackOpinion.opinion
        = disclaimerPhrase ++ " AI opinion is currently unavailable for this stock, please conduct your own research." ∧
    ((s = .error () ∨ s = .ok none) →
        OpinionFlow.stockOpinionFlow s = OpinionFlow.fallbackOpinion) ∧
    OpinionFlow.fallbackOpinion.opinion
        = disclaimerPhrase ++ " The AI opinion is currently unavailable due to a technical issue. Please try again later." ∧
    (∀ o, StockFlow.getStockOpinionFlow (.ok (some o)) = o) ∧
    (∀ o, OpinionFlow.stockOpinionFlow (.ok (some o)) = o) := by
  refine ⟨?_, rfl, ?_, rfl, fun o => rfl, fun o => rfl⟩
  · rintro (rfl | rfl) <;> rfl
  · rintro (rfl | rfl) <;> rfl

/-- Witness for C7: both flows applied to a thrown call return their
fallback opinions. -/
theorem opinion_flows_fallback_witness :
    StockFlow.getStockOpinionFlow (.error ()) = StockFlow.fallbackOpinion ∧
    OpinionFlow.stockOpinionFlow (.error ()) = OpinionFlow.fallbackOpinion :=
  ⟨(opinion_flows_fallback (.error ()) (.error ())).1 (Or.inl rfl),
    (opinion_flows_fallback (.error ()) (.error ())).2.2.1 (Or.inl rfl)⟩

lemma getStockDataFlowAux_length (o : StockFlow.Oracle) (rng : ℕ → ℕ → ℚ) :
    ∀ (ts : List String) (i : ℕ),
      (StockFlow.getStockDataFlowAux o rng i ts).length = ts.length := by
  intro ts
  induction ts with
  | nil => intro i; rfl
  | cons t ts ih =>
    intro i
    simp [StockFlow.getStockDataFlowAux, ih]

lemma getStockDataFlowAux_getElem (o : StockFlow.Oracle) (rng : ℕ → ℕ → ℚ) :
    ∀ (ts : List String) (i j : ℕ),
      (StockFlow.getStockDataFlowAux o rng i ts)[j]?
        = (ts[j]?).map (fun t => StockFlow.fetchOne o (rng (i + j)) t) := by
  intro ts
  induction ts with
  | nil => intro i j; simp [StockFlow.getStockDataFlowAux]
  | cons t ts ih =>
    intro i j
    cases j with
    | zero => simp [StockFlow.getStockDataFlowAux]
    | succ j =>
      have h := ih (i + 1) j
      simp only [StockFlow.getStockDataFlowAux, List.getElem?_cons_succ, h]
      have : i + 1 + j = i + (j + 1) := by omega
      rw [this]

/-- An exception-free oracle outcome test, matching the source's
`try`-block succeeding. -/
def exceptOk {ε α : Type} : Except ε α → Bool
  | .ok _ => true
  | .error _ => false

/-- Claim C2: `getStockDataFlow` never propagates a per-ticker failure:
for every ticker list and every oracle behaviour (throwing calls, null
outputs, falsy price, empty chart array) the flow returns a full-length
array; each element is either the AI output (when the per-ticker try block
succeeds) or the locally generated mock substitute; and in particular a
thrown `stockInfoPrompt`, a null stock info, or an empty chart array each
force the mock substitute. -/
theorem getStockDataFlow_resilient (o : StockFlow.Oracle) (rng : ℕ → ℕ → ℚ)
    (ts : List String) (i : ℕ) (t : String) (ht : ts[i]? = some t) :
    (StockFlow.getStockDataFlow o rng ts).length = ts.length ∧
    (StockFlow.getStockDataFlow o rng ts)[i]?
        = some (StockFlow.fetchOne o (rng i) t) ∧
    ((∃ r, StockFlow.fetchOneTry o t = .ok r ∧
        StockFlow.fetchOne o (rng i) t = r) ∨
      (exceptOk (StockFlow.fetchOneTry o t) = false ∧
        StockFlow.fetchOne o (rng i) t
          = StockFlow.mockStockData (rng i) t)) ∧
    (o.stockInfo t = .error () →
      StockFlow.fetchOne o (rng i) t = StockFlow.mockStockData (rng i) t) ∧
    (o.stockInfo t = .ok none →
      StockFlow.fetchOne o (rng i) t = StockFlow.mockStockData (rng i) t) ∧
    (∀ si, o.stockInfo t = .ok (some si) →
      o.chartData t si.price = .ok (some []) →
      StockFlow.fetchOne o (rng i) t = StockFlow.mockStockData (rng i) t) := by
  refine ⟨getStockDataFlowAux_length o rng ts 0, ?_, ?_, ?_, ?_, ?_⟩
  · have h := getStockDataFlowAux_getElem o rng ts 0 i
    rw [StockFlow.getStockDataFlow, h, ht]
    simp
  · cases h : StockFlow.fetchOneTry o t with
    | ok r => exact Or.inl ⟨r, rfl, by simp [StockFlow.fetchOne, h]⟩
    | error e =>
      exact Or.inr ⟨by simp [exceptOk, h], by simp [StockFlow.fetchOne, h]⟩
  · intro h
    simp [StockFlow.fetchOne, StockFlow.fetchOneTry, h]
  · intro h
    simp [StockFlow.fetchOne, StockFlow.fetchOneTry, h]
  · intro si h1 h2
    by_cases hp : si.price = 0 <;>
      simp [StockFlow.fetchOne, StockFlow.fetchOneTry, h1, h2, hp]

/-- An oracle whose generative calls always throw. -/
def failOracle : StockFlow.Oracle :=
  ⟨fun _ => .error (), fun _ _ => .error ()⟩

/-- An all-zeros random stream. -/
def zeroRng : ℕ → ℕ → ℚ := fun _ _ => 0

/-- Witness for C2 at a concrete one-ticker input and an always-throwing
oracle. -/
theorem getStockDataFlow_resilient_witness :
    (StockFlow.getStockDataFlow failOracle zeroRng ["RELIANCE"]).length
        = (["RELIANCE"] : List String).length ∧
    (StockFlow.getStockDataFlow failOracle zeroRng ["RELIANCE"])[0]?
        = some (StockFlow.fetchOne failOracle (zeroRng 0) "RELIANCE") ∧
    ((∃ r, StockFlow.fetchOneTry failOracle "RELIANCE" = .ok r ∧
        StockFlow.fetchOne failOracle (zeroRng 0) "RELIANCE" = r) ∨
      (exceptOk (StockFlow.fetchOneTry failOracle "RELIANCE") = false ∧
        StockFlow.fetchOne failOracle (zeroRng 0) "RELIANCE"
          = StockFlow.mockStockData (zeroRng 0) "RELIANCE")) ∧
    (failOracle.stockInfo "RELIANCE" = .error () →
      StockFlow.fetchOne failOracle (zeroRng 0) "RELIANCE"
        = StockFlow.mockStockData (zeroRng 0) "RELIANCE") ∧
    (failOracle.stockInfo "RELIANCE" = .ok none →
      StockFlow.fetchOne failOracle (zeroRng 0) "RELIANCE"
        = StockFlow.mockStockData (zeroRng 0) "RELIANCE") ∧
    (∀ si, failOracle.stockInfo "RELIANCE" = .ok (some si) →
      failOracle.chartData "RELIANCE" si.price = .ok (some []) →
      StockFlow.fetchOne failOracle (zeroRng 0) "RELIANCE"
        = StockFlow.mockStockData (zeroRng 0) "RELIANCE") :=
  getStockDataFlow_resilient failOracle zeroRng ["RELIANCE"] 0 "RELIANCE" rfl

/-- Claim C8: `getStockDataFlow` returns an array of exactly the input
length; the i-th element is the per-ticker result computed for the i-th
input ticker (order and multiplicity preserved, under failures too, since
the fallback lives inside the per-ticker closure); and the mock fallback's
stock carries the input ticker verbatim. -/
theorem getStockDataFlow_elementwise (o : StockFlow.Oracle)
    (rng : ℕ → ℕ → ℚ) (ts : List String) :
    (StockFlow.getStockDataFlow o rng ts).length = ts.length ∧
    (∀ i t, ts[i]? = some t →
      (StockFlow.getStockDataFlow o rng ts)[i]?
        = some (StockFlow.fetchOne o (rng i) t)) ∧
    (∀ r u, (StockFlow.mockStockData r u).stock.ticker = u) := by
  refine ⟨getStockDataFlowAux_length o rng ts 0, ?_, fun r u => rfl⟩
  intro i t ht
  have h := getStockDataFlowAux_getElem o rng ts 0 i
  rw [StockFlow.getStockDataFlow, h, ht]
  simp

/-- Witness for C8 at a concrete ticker list. -/
theorem getStockDataFlow_elementwise_witness :
    (StockFlow.getStockDataFlow failOracle zeroRng ["TCS", "INFY"])[1]?
        = some (StockFlow.fetchOne failOracle (zeroRng 1) "INFY") ∧
    (StockFlow.mockStockData (zeroRng 0) "WIPRO").stock.ticker = "WIPRO" :=
  ⟨(getStockDataFlow_elementwise failOracle zeroRng ["TCS", "INFY"]).2.1
      1 "INFY" rfl,
    (getStockDataFlow_elementwise failOracle zeroRng ["TCS", "INFY"]).2.2
      (zeroRng 0) "WIPRO"⟩

/-- Claim C9: the add-stock handler is atomic: on invalid input (an empty
field, parsed shares ≤ 0, or parsed price < 0 — `parseFloat` yielding `NaN`
passes the numeric checks, as NaN comparisons are false in JS) the holdings
list is unchanged; otherwise exactly one holding is appended at the end,
with the ticker upper-cased and name/current price from `REAL_STOCK_DATA`
when the upper-cased ticker is a key there and from the user's input
otherwise; the previously held entries are unchanged in both cases. -/
theorem handleAddStock_atomic (parse : String → Option ℚ)
    (hs : List Portfolio.JsHolding) (f : Portfolio.NewStockForm) :
    Portfolio.handleAddStock parse hs f
        = (if Portfolio.addGuard parse f then hs
            else hs ++ [Portfolio.newHoldingOf parse f]) ∧
    (Portfolio.handleAddStock parse hs f).take hs.length = hs ∧
    (Portfolio.addGuard parse f = true ↔
      (f.ticker = "" ∨ f.shares = "" ∨ f.price = "" ∨
        (∃ q, parse f.shares = some q ∧ q ≤ 0) ∨
        (∃ q, parse f.price = some q ∧ q < 0))) ∧
    (Portfolio.newHoldingOf parse f).ticker = Portfolio.jsToUpper f.ticker ∧
    (∀ sd, lookupReal (Portfolio.jsToUpper f.ticker) = some sd →
      (Portfolio.newHoldingOf parse f).name = sd.name ∧
      (Portfolio.newHoldingOf parse f).currentPrice = some sd.price) ∧
    (lookupReal (Portfolio.jsToUpper f.ticker) = none →
      (Portfolio.newHoldingOf parse f).name
          = Portfolio.jsToUpper f.ticker ++ " - (Custom)" ∧
      (Portfolio.newHoldingOf parse f).currentPrice = parse f.price) := by
  refine ⟨rfl, ?_, ?_, ?_, ?_, ?_⟩
  · unfold Portfolio.handleAddStock
    split
    · exact List.take_length hs
    · exact List.take_left hs _
  · cases hsh : parse f.shares <;> cases hpr : parse f.price <;>
      simp [Portfolio.addGuard, Portfolio.jsLeZero, Portfolio.jsLtZero,
        hsh, hpr, Bool.or_eq_true, beq_iff_eq, or_assoc]
  · unfold Portfolio.newHoldingOf
    cases h : lookupReal (Portfolio.jsToUpper f.ticker) <;> rfl
  · intro sd h
    unfold Portfolio.newHoldingOf
    rw [h]
    exact ⟨rfl, rfl⟩
  · intro h
    unfold Portfolio.newHoldingOf
    rw [h]
    exact ⟨rfl, rfl⟩

/-- Witness for C9 at a concrete valid form whose upper-cased ticker is in
the real-data table. -/
theorem handleAddStock_atomic_witness :
    (Portfolio.newHoldingOf (fun _ => some 10)
        ⟨"RELIANCE", "10", "1500"⟩).name = "Reliance Industries Ltd." ∧
    (Portfolio.newHoldingOf (fun _ => some 10)
        ⟨"RELIANCE", "10", "1500"⟩).currentPrice = some 1516.00 ∧
    (Portfolio.handleAddStock (fun _ => some 10) []
        ⟨"RELIANCE", "10", "1500"⟩).take 0 = [] := by
  have h := handleAddStock_atomic (fun _ => some 10) []
    (⟨"RELIANCE", "10", "1500"⟩ : Portfolio.NewStockForm)
  have hup : Portfolio.jsToUpper (⟨"RELIANCE", "10", "1500"⟩ :
      Portfolio.NewStockForm).ticker = "RELIANCE" := rfl
  have hlook : lookupReal (Portfolio.jsToUpper (⟨"RELIANCE", "10", "1500"⟩ :
      Portfolio.NewStockForm).ticker)
      = some ⟨"Reliance Industries Ltd.", 1516.00, -0.20⟩ := by
    rw [hup]
    simp [lookupReal, REAL_STOCK_DATA, List.find?]
  obtain ⟨-, htake, -, -, hsome, -⟩ := h
  have hnm := hsome _ hlook
  exact ⟨hnm.1, hnm.2, htake⟩

lemma head_filter_price (l : List ChartPoint) :
    ((l.filter (fun d => d.price.isSome)).head?).bind (fun d => d.price)
      = (l.filterMap (fun d => d.price)).head? := by
  induction l with
  | nil => rfl
  | cons d l ih =>
    cases hd : d.price with
    | some q => simp [List.filter_cons, List.filterMap_cons, hd]
    | none => simpa [List.filter_cons, List.filterMap_cons, hd] using ih

lemma getLast_filter_price (l : List ChartPoint) :
    ((l.filter (fun d => d.price.isSome)).getLast?).bind (fun d => d.price)
      = lastHistoricalPrice l := by
  unfold lastHistoricalPrice
  rw [← List.head?_reverse, ← List.head?_reverse, ← List.filter_reverse,
    ← List.filterMap_reverse]
  exact head_filter_price l.reverse

lemma set_preserve_elem {α : Type} (l : List α) :
    ∀ (i : ℕ) (a : α), l[i]? = some a → l.set i a = l := by
  induction l with
  | nil => intro i a h; simp at h
  | cons x xs ih =>
    intro i a h
    cases i with
    | zero =>
      simp only [List.getElem?_cons_zero, Option.some.injEq] at h
      simp [h]
    | succ i =>
      simp only [List.getElem?_cons_succ] at h
      simp [List.set, ih i a h]

lemma filterMap_price_congr (l1 l2 : List ChartPoint)
    (h : l1.map (fun d => d.price) = l2.map (fun d => d.price)) :
    l1.filterMap (fun d => d.price) = l2.filterMap (fun d => d.price) := by
  have e1 : l1.filterMap (fun d => d.price)
      = (l1.map (fun d => d.price)).filterMap id := by
    rw [List.filterMap_map]
    rfl
  have e2 : l2.filterMap (fun d => d.price)
      = (l2.map (fun d => d.price)).filterMap id := by
    rw [List.filterMap_map]
    rfl
  rw [e1, e2, h]

lemma repair_price_map (o : StockData) :
    (StockDataV2.repairStockData o).chartData.map (fun d => d.price)
      = o.chartData.map (fun d => d.price) := by
  unfold StockDataV2.repairStockData
  cases hb : ((o.chartData.filter (fun d => d.price.isSome)).getLast?).bind
      (fun d => d.price) with
  | none => rfl
  | some p =>
    dsimp only
    by_cases h0 : p = 0
    · rw [if_pos h0]
    · rw [if_neg h0]
      split
      · split
        · rename_i d heq
          show (o.chartData.set _ _).map (fun d => d.price) = _
          rw [List.map_set]
          exact set_preserve_elem _ _ _
            (by rw [List.getElem?_map, heq]; rfl)
        · rfl
      · rfl

/-- Claim C1 (amended): in the AI-backed flow's repair step, whenever the
chart has a historical point and the last historical price `p` is nonzero,
the returned stock's price is set to `p` and the last historical price of
the output is `p` (the repair writes `stock.price := p`, not the converse,
and skips entirely when `p = 0` by JS truthiness); in the local mock path,
the last historical chart point carries the stock's current price rounded
to two decimals, `round2 price`, not the price itself. -/
theorem price_anchoring (o : StockData) (p : ℚ) (rng : ℕ → ℚ) (t : String)
    (h1 : lastHistoricalPrice o.chartData = some p) (h2 : p ≠ 0) :
    (StockDataV2.repairStockData o).stock.price = p ∧
    lastHistoricalPrice (StockDataV2.repairStockData o).chartData = some p ∧
    lastHistoricalPrice (StockFlow.mockStockData rng t).chartData
      = some (round2 (StockFlow.mockStockData rng t).stock.price) := by
  have hb : ((o.chartData.filter (fun d => d.price.isSome)).getLast?).bind
      (fun d => d.price) = some p := by
    rw [getLast_filter_price]
    exact h1
  refine ⟨?_, ?_, rfl⟩
  · unfold StockDataV2.repairStockData
    rw [hb]
    dsimp only
    rw [if_neg h2]
    split
    · split <;> rfl
    · rfl
  · have hm : lastHistoricalPrice (StockDataV2.repairStockData o).chartData
        = lastHistoricalPrice o.chartData := by
      unfold lastHistoricalPrice
      rw [filterMap_price_congr _ _ (repair_price_map o)]
    rw [hm, h1]

/-- A concrete well-formed AI output: one historical point with price 2. -/
def anchorWitnessOutput : StockData :=
  ⟨⟨"T", "T Fictional Inc.", 1, 0, 0⟩, [⟨"Jan", some 2, none⟩]⟩

/-- Witness for C1 (amended) at a concrete output and random stream. -/
theorem price_anchoring_witness :
    (StockDataV2.repairStockData anchorWitnessOutput).stock.price = 2 ∧
    lastHistoricalPrice
        (StockDataV2.repairStockData anchorWitnessOutput).chartData
      = some 2 ∧
    lastHistoricalPrice (StockFlow.mockStockData (fun _ => 0) "X").chartData
      = some (round2 (StockFlow.mockStockData (fun _ => 0) "X").stock.price) :=
  price_anchoring anchorWitnessOutput 2 (fun _ => 0) "X" rfl (by norm_num)

/-- An AI output whose single historical point has price `0`: the repair
guard `if (lastHistoricalPoint.price)` is falsy, so nothing is patched. -/
def zeroPriceOutput : StockData :=
  ⟨⟨"ABC", "ABC Fictional Inc.", 100, 0, 0⟩, [⟨"Jan", some 0, none⟩]⟩

/-- A random stream whose first draw is `1/8192` (a value `Math.random()`
can return) and all later draws are `0`: the mock stock price becomes
`500 + 7500/8192`, which has more than two decimal places. -/
def cexStream : ℕ → ℚ := fun n => if n = 0 then 1/8192 else 0

/-- Counterexample to claim C1 as stated.  Repair path: on an output whose
last (only) historical price is `0`, the repair is skipped and the stock
price stays `100`, so the last historical price differs from the stock
price.  Mock path: the fallback stock's price is `500 + 7500/8192` while
the 6th chart point holds its two-decimal rounding `500.92`, so they
differ; both outputs contain a historical point. -/
theorem price_anchoring_cex :
    (lastHistoricalPrice
        (StockDataV2.repairStockData zeroPriceOutput).chartData).isSome
      = true ∧
    lastHistoricalPrice (StockDataV2.repairStockData zeroPriceOutput).chartData
      ≠ some (StockDataV2.repairStockData zeroPriceOutput).stock.price ∧
    (lastHistoricalPrice
        (StockFlow.mockStockData cexStream "ABC").chartData).isSome = true ∧
    lastHistoricalPrice (StockFlow.mockStockData cexStream "ABC").chartData
      ≠ some (StockFlow.mockStockData cexStream "ABC").stock.price := by
  refine ⟨rfl, ?_, rfl, ?_⟩
  · show some (0 : ℚ) ≠ some 100
    simp
  · show some (round2 (cexStream 0 * (8000 - 500) + 500))
        ≠ some (cexStream 0 * (8000 - 500) + 500)
    simp only [cexStream]
    norm_num [round2]

lemma findIdx_append_first {α : Type} (p : α → Bool) :
    ∀ (H P : List α), (∀ a ∈ H, p a = false) →
      (∃ q qs, P = q :: qs ∧ p q = true) →
      (H ++ P).findIdx p = H.length := by
  intro H
  induction H with
  | nil =>
    intro P _ hP
    obtain ⟨q, qs, rfl, hq⟩ := hP
    simp [List.findIdx_cons, hq]
  | cons x xs ih =>
    intro P hH hP
    have hx : p x = false := hH x (by simp)
    simp [List.findIdx_cons, hx, ih P (fun a ha => hH a (by simp [ha])) hP]

lemma set_length_sub_one {α : Type} :
    ∀ (l : List α) (x : α), l ≠ [] →
      l.set (l.length - 1) x = l.dropLast ++ [x] := by
  intro l
  induction l with
  | nil => intro x h; exact absurd rfl h
  | cons a t ih =>
    intro x _
    cases t with
    | nil => rfl
    | cons b t' =>
      show a :: (b :: t').set t'.length x = a :: ((b :: t').dropLast ++ [x])
      exact congrArg _ (ih x (by simp))

/-- Claim C3 (amended): when the AI chart is well formed — all points
carrying a price form a prefix, followed by a nonempty run of price-less
points — and the last historical price `p` is nonzero, the repair gives the
last historical point (the one just before the first price-less point) a
prediction equal to `p`, leaving every other point unchanged; and in the
mock generator the predicted series is the recurrence `predTemp` started
from exactly the current price, whose successive rounded values fill the
four prediction months.  (On charts where a price-less point precedes a
priced one, the patched point need not be the last historical point — see
the counterexample — hence the well-formedness hypothesis.) -/
theorem prediction_stitching (stock : Stock) (H P : List ChartPoint)
    (hl : ChartPoint) (p price : ℚ) (rng : ℕ → ℚ)
    (hH : ∀ d ∈ H, d.price.isSome = true)
    (hP : ∀ d ∈ P, d.price = none)
    (hPne : P ≠ [])
    (hlast : H.getLast? = some hl)
    (hp : hl.price = some p) (hp0 : p ≠ 0) :
    (StockDataV2.repairStockData ⟨stock, H ++ P⟩).chartData
        = H.dropLast ++ ({ hl with prediction := some p } :: P) ∧
    StockFlow.predTemp price rng 0 = price ∧
    (StockFlow.generateMockChartData price rng).drop 6
        = [ ⟨"Jul", none, some (round2 (StockFlow.predTemp price rng 1))⟩
          , ⟨"Aug", none, some (round2 (StockFlow.predTemp price rng 2))⟩
          , ⟨"Sep", none, some (round2 (StockFlow.predTemp price rng 3))⟩
          , ⟨"Oct", none, some (round2 (StockFlow.predTemp price rng 4))⟩ ] := by
  have hHne : H ≠ [] := by
    intro h
    rw [h] at hlast
    simp at hlast
  have hH0 : 0 < H.length := List.length_pos.mpr hHne
  have hfilter : (H ++ P).filter (fun d => d.price.isSome) = H := by
    rw [List.filter_append, List.filter_eq_self.mpr hH]
    have hPnil : P.filter (fun d => d.price.isSome) = [] := by
      rw [List.filter_eq_nil_iff]
      intro a ha
      simp [hP a ha]
    rw [hPnil, List.append_nil]
  have hbind : (((H ++ P).filter (fun d => d.price.isSome)).getLast?).bind
      (fun d => d.price) = some p := by
    rw [hfilter, hlast]
    exact hp
  have hfind : (H ++ P).findIdx (fun d => d.price.isNone) = H.length := by
    apply findIdx_append_first
    · intro a ha
      have hs := hH a ha
      cases hq : a.price with
      | none => rw [hq] at hs; simp at hs
      | some q => simp [hq]
    · obtain ⟨q, qs, rfl⟩ := List.exists_cons_of_ne_nil hPne
      exact ⟨q, qs, rfl, by simp [hP q (by simp)]⟩
  have hlen : H.length < (H ++ P).length := by
    rw [List.length_append]
    obtain ⟨q, qs, rfl⟩ := List.exists_cons_of_ne_nil hPne
    simp
  have hidx : H.length - 1 < H.length := by omega
  have hget : (H ++ P)[H.length - 1]? = some hl := by
    rw [List.getElem?_append, if_pos hidx, ← List.getLast?_eq_getElem?]
    exact hlast
  refine ⟨?_, rfl, rfl⟩
  unfold StockDataV2.repairStockData
  dsimp only
  rw [hbind]
  dsimp only
  rw [if_neg hp0, hfind, if_pos ⟨hlen, hH0⟩, hget]
  dsimp only
  rw [List.set_append, if_pos hidx, set_length_sub_one H _ hHne]
  simp

/-- A concrete well-formed chart: one historical point then one
prediction-only point. -/
def stitchH : List ChartPoint := [⟨"Jan", some 3, none⟩]

/-- The prediction-only suffix of the concrete well-formed chart. -/
def stitchP : List ChartPoint := [⟨"Feb", none, none⟩]

/-- A stock record for the concrete stitching examples. -/
def stitchStock : Stock := ⟨"T", "T Fictional Inc.", 1, 0, 0⟩

/-- An all-zeros single random stream. -/
def zeroStream : ℕ → ℚ := fun _ => 0

/-- Witness for C3 (amended) at the concrete well-formed chart. -/
theorem prediction_stitching_witness :
    (StockDataV2.repairStockData ⟨stitchStock, stitchH ++ stitchP⟩).chartData
        = stitchH.dropLast ++
            ({ (⟨"Jan", some 3, none⟩ : ChartPoint) with
                prediction := some 3 } :: stitchP) ∧
    StockFlow.predTemp 5 zeroStream 0 = 5 ∧
    (StockFlow.generateMockChartData 5 zeroStream).drop 6
        = [ ⟨"Jul", none, some (round2 (StockFlow.predTemp 5 zeroStream 1))⟩
          , ⟨"Aug", none, some (round2 (StockFlow.predTemp 5 zeroStream 2))⟩
          , ⟨"Sep", none, some (round2 (StockFlow.predTemp 5 zeroStream 3))⟩
          , ⟨"Oct", none,
              some (round2 (StockFlow.predTemp 5 zeroStream 4))⟩ ] :=
  prediction_stitching stitchStock stitchH stitchP ⟨"Jan", some 3, none⟩ 3 5
    zeroStream
    (by intro d hd; rw [stitchH, List.mem_singleton] at hd; subst hd; rfl)
    (by intro d hd; rw [stitchP, List.mem_singleton] at hd; subst hd; rfl)
    (by simp [stitchP])
    rfl
    rfl
    (by norm_num)

/-- An AI chart with a historical point ("Jan") followed by a
prediction-only point ("Feb") and then another historical point ("Mar"):
schema-valid, since both fields are optional per point. -/
def stitchCexChart : List ChartPoint :=
  [⟨"Jan", some 100, none⟩, ⟨"Feb", none, some 50⟩, ⟨"Mar", some 200, none⟩]

/-- The AI output wrapping `stitchCexChart`. -/
def stitchCexOutput : StockData :=
  ⟨⟨"ABC", "ABC Fictional Inc.", 150, 0, 0⟩, stitchCexChart⟩

/-- Counterexample to claim C3 as stated: `stitchCexChart` has a historical
point followed by a prediction-only point, but the repair patches the point
before the first price-less point — index 0 ("Jan"), whose own price is
100 — writing the last historical price 200 into its prediction, while the
last historical point ("Mar", price 200) keeps `prediction = none`: the
last historical point is not given a prediction. -/
theorem prediction_stitching_cex :
    stitchCexChart.map (fun d => d.price) = [some 100, none, some 200] ∧
    (StockDataV2.repairStockData stitchCexOutput).chartData
        = [⟨"Jan", some 100, some 200⟩, ⟨"Feb", none, some 50⟩,
            ⟨"Mar", some 200, none⟩] ∧
    ((StockDataV2.repairStockData stitchCexOutput).chartData.filter
        (fun d => d.price.isSome)).getLast? = some ⟨"Mar", some 200, none⟩ ∧
    (⟨"Mar", some 200, none⟩ : ChartPoint).prediction ≠ some 200 := by
  refine ⟨rfl, ?_, ?_, by simp⟩
  · rfl
  · rfl
